import Mathlib

/-!
Shallow embedding of the simulation / risk-inference engine of
`src/src/App.jsx` (Red-Launch/demo).  Coordinates are embedded as
rationals (the JavaScript source only ever combines decimal literals
with `+`, `-`, `*`, `/`, all exact on the inputs that occur); counters
and scores are natural numbers; timestamps (`Date.now()`) are integers.
Every `Math.random()` draw is made an explicit oracle input, so each
source function becomes a deterministic Lean function of its state plus
the drawn values.
-/

set_option maxHeartbeats 1000000

namespace Demo

/-! ## Geofence index -/

/-- Properties record of a GeoJSON feature (`feature.properties` in the
source).  The synthetic `outside` zone has no `id` property, hence
`Option String`. -/
structure ZoneProps where
  name : String
  zoneType : String
  id : Option String
deriving DecidableEq, Repr

/-- One entry of `geoJsonData.features`: the properties together with the
outer ring `feature.geometry.coordinates[0]`. -/
structure Feature where
  props : ZoneProps
  ring : List (ℚ × ℚ)

/-- Ring of the Stadium Bowl (public) polygon, literals from the source. -/
def bowlRing : List (ℚ × ℚ) :=
  [(-86.1655, 39.7615), (-86.1617, 39.7615),
   (-86.1617, 39.7588), (-86.1655, 39.7588),
   (-86.1655, 39.7615)]

/-- Ring of the Field Level (restricted) polygon. -/
def fieldRing : List (ℚ × ℚ) :=
  [(-86.1648, 39.7608), (-86.1624, 39.7608),
   (-86.1624, 39.7594), (-86.1648, 39.7594),
   (-86.1648, 39.7608)]

/-- Ring of the VIP Suites North polygon. -/
def vipNorthRing : List (ℚ × ℚ) :=
  [(-86.1650, 39.7615), (-86.1622, 39.7615),
   (-86.1622, 39.7611), (-86.1650, 39.7611),
   (-86.1650, 39.7615)]

/-- Ring of the VIP Suites South polygon. -/
def vipSouthRing : List (ℚ × ℚ) :=
  [(-86.1650, 39.7591), (-86.1622, 39.7591),
   (-86.1622, 39.7587), (-86.1650, 39.7587),
   (-86.1650, 39.7591)]

/-- Ring of the Team Tunnel (critical) polygon. -/
def tunnelRing : List (ℚ × ℚ) :=
  [(-86.1638, 39.7594), (-86.1634, 39.7594),
   (-86.1634, 39.7588), (-86.1638, 39.7588),
   (-86.1638, 39.7594)]

/-- Ring of the East Concourse polygon. -/
def concourseEastRing : List (ℚ × ℚ) :=
  [(-86.1620, 39.7612), (-86.1615, 39.7612),
   (-86.1615, 39.7590), (-86.1620, 39.7590),
   (-86.1620, 39.7612)]

/-- Ring of the West Concourse polygon. -/
def concourseWestRing : List (ℚ × ℚ) :=
  [(-86.1657, 39.7612), (-86.1652, 39.7612),
   (-86.1652, 39.7590), (-86.1657, 39.7590),
   (-86.1657, 39.7612)]

/-- The seven features of `geoJsonData`, in declared (priority) order. -/
def geoJsonFeatures : List Feature :=
  [⟨⟨"Stadium Bowl", "public", some "bowl"⟩, bowlRing⟩,
   ⟨⟨"Field Level", "restricted", some "field"⟩, fieldRing⟩,
   ⟨⟨"VIP Suites North", "vip", some "vip-north"⟩, vipNorthRing⟩,
   ⟨⟨"VIP Suites South", "vip", some "vip-south"⟩, vipSouthRing⟩,
   ⟨⟨"Team Tunnel", "critical", some "tunnel"⟩, tunnelRing⟩,
   ⟨⟨"East Concourse", "concourse", some "concourse-e"⟩, concourseEastRing⟩,
   ⟨⟨"West Concourse", "concourse", some "concourse-w"⟩, concourseWestRing⟩]

/-- One iteration of the even-odd ray-casting loop body of
`isPointInPolygon`: `vi` is `vs[i]`, `vj` is `vs[j]` (the predecessor).
The JavaScript guard `(yi > y) !== (yj > y)` short-circuits `&&` before
the division, so on rationals (division by zero defined as zero) the
conjunction agrees with the source semantics. -/
def edgeFlip (x y : ℚ) (inside : Bool) (vi vj : ℚ × ℚ) : Bool :=
  if (decide (vi.2 > y) != decide (vj.2 > y)) &&
     decide (x < (vj.1 - vi.1) * (y - vi.2) / (vj.2 - vi.2) + vi.1)
  then !inside else inside

/-- Even-odd ray casting point-in-polygon test (`isPointInPolygon`).
The JavaScript loop runs `i` over all indices with `j` the previous
index (`j = vs.length - 1` initially); pairing each vertex with its
predecessor is expressed by zipping `vs` against `last :: vs`. -/
def isPointInPolygon (point : ℚ × ℚ) (vs : List (ℚ × ℚ)) : Bool :=
  (vs.zip (vs.getLastD (0, 0) :: vs)).foldl
    (fun inside q => edgeFlip point.1 point.2 inside q.1 q.2) false

/-- Zone lookup (`getZoneForPoint`): first feature (in declared order)
whose polygon contains the point; otherwise the synthetic outside
zone. -/
def getZoneForPoint (lng lat : ℚ) : ZoneProps :=
  match geoJsonFeatures.find? (fun f => isPointInPolygon (lng, lat) f.ring) with
  | some f => f.props
  | none => ⟨"Outside", "outside", none⟩

/-! ## Agent state -/

/-- Immutable background of an agent (`entity.history`). -/
structure History where
  priorIncidents : ℕ
  watchlistStatus : String
  alcoholPattern : String
deriving DecidableEq, Repr

/-- Mutable session state of an agent (`entity.session`). -/
structure Session where
  alcoholCount : ℕ
  zonesVisited : List (Option String)
  isWatched : Bool
deriving DecidableEq, Repr

/-- A position / target point. -/
structure Pos where
  longitude : ℚ
  latitude : ℚ
deriving DecidableEq, Repr

/-- An agent record, as produced by `generateEntities` and threaded
through the simulation tick. -/
structure Entity where
  id : String
  name : String
  ticketType : String
  longitude : ℚ
  latitude : ℚ
  target : Pos
  status : String
  waitTicks : ℕ
  inventory : List String
  history : History
  session : Session
  threatScore : ℕ
  threatLevel : String
  threatFactors : List String
deriving DecidableEq, Repr

/-! ## Threat scoring engine

`calculateThreatScore` accumulates `score += n; factors.push(label)`
through a fixed sequence of independent branches.  Each branch is
embedded as a helper returning its `(points, pushed labels)` pair, and
the main function adds the points and concatenates the labels in the
source's evaluation order, which is equivalent to the source's
sequential mutation. -/

/-- Watchlist branch of `calculateThreatScore`. -/
def watchlistContrib (entity : Entity) : ℕ × List String :=
  if entity.history.watchlistStatus == "high" then (35, ["HIGH WATCHLIST"])
  else if entity.history.watchlistStatus == "low" then (15, ["Low Watchlist"])
  else (0, [])

/-- Prior-incidents branch of `calculateThreatScore`. -/
def priorContrib (entity : Entity) : ℕ × List String :=
  if entity.history.priorIncidents > 0 then
    (entity.history.priorIncidents * 12,
     [toString entity.history.priorIncidents ++ " Prior Incident(s)"])
  else (0, [])

/-- Heavy-alcohol-history branch of `calculateThreatScore`. -/
def alcoholHistoryContrib (entity : Entity) : ℕ × List String :=
  if entity.history.alcoholPattern == "heavy" then (10, ["Heavy Drinker History"])
  else (0, [])

/-- Session-drinks branch of `calculateThreatScore`.  Note the source
pushes no factor label in the `>= 3` tier. -/
def drinksContrib (entity : Entity) : ℕ × List String :=
  if entity.session.alcoholCount ≥ 6 then (30, ["Excessive Alcohol (6+)"])
  else if entity.session.alcoholCount ≥ 4 then (18, ["High Alcohol (4+)"])
  else if entity.session.alcoholCount ≥ 3 then (8, [])
  else (0, [])

/-- Zone-violation branch of `calculateThreatScore`; the zone is the
one containing the entity's current position. -/
def zoneContrib (entity : Entity) : ℕ × List String :=
  let zone := getZoneForPoint entity.longitude entity.latitude
  if zone.zoneType == "critical" && !(entity.ticketType == "staff") then
    (45, ["CRITICAL ZONE VIOLATION"])
  else if zone.zoneType == "restricted" && !(["staff", "media"].contains entity.ticketType) then
    (30, ["Restricted Zone Access"])
  else if zone.zoneType == "vip" && !(entity.ticketType == "vip")
          && !(entity.ticketType == "staff") then
    (20, ["VIP Zone - No Auth"])
  else (0, [])

/-- Rushing-behaviour branch of `calculateThreatScore`. -/
def rushingContrib (entity : Entity) : ℕ × List String :=
  if entity.status == "rushing" then (15, ["Rushing Behavior"]) else (0, [])

/-- Loitering branch of `calculateThreatScore` (loitering outside a
concourse zone). -/
def loiteringContrib (entity : Entity) : ℕ × List String :=
  if entity.status == "loitering"
     && !((getZoneForPoint entity.longitude entity.latitude).zoneType == "concourse") then
    (10, ["Loitering"])
  else (0, [])

/-- Operator-flag branch of `calculateThreatScore`. -/
def watchedContrib (entity : Entity) : ℕ × List String :=
  if entity.session.isWatched then (5, ["User Flagged"]) else (0, [])

/-- Result record of `calculateThreatScore`. -/
structure ThreatResult where
  score : ℕ
  level : String
  factors : List String
deriving DecidableEq, Repr

/-- The threat scoring engine (`calculateThreatScore`).  The returned
score is clamped with `Math.min(100, score)`; the level thresholds are
evaluated on the raw (pre-clamp) sum, exactly as in the source.  The
`gamePhase` argument is accepted but unused, as in the source. -/
def calculateThreatScore (entity : Entity) (gamePhase : String) : ThreatResult :=
  let score := (watchlistContrib entity).1 + (priorContrib entity).1
    + (alcoholHistoryContrib entity).1 + (drinksContrib entity).1
    + (zoneContrib entity).1 + (rushingContrib entity).1
    + (loiteringContrib entity).1 + (watchedContrib entity).1
  { score := min 100 score
    level :=
      if score ≥ 70 then "CRITICAL"
      else if score ≥ 45 then "HIGH"
      else if score ≥ 25 then "MEDIUM"
      else "LOW"
    factors := (watchlistContrib entity).2 ++ (priorContrib entity).2
      ++ (alcoholHistoryContrib entity).2 ++ (drinksContrib entity).2
      ++ (zoneContrib entity).2 ++ (rushingContrib entity).2
      ++ (loiteringContrib entity).2 ++ (watchedContrib entity).2 }

/-! ## Motion model: exclusion zone and legal position sampling -/

/-- Per-tick step size (`MOVEMENT_SPEED`). -/
def MOVEMENT_SPEED : ℚ := 0.00008

/-- Axis-aligned bounds record. -/
structure Bounds where
  minLng : ℚ
  maxLng : ℚ
  minLat : ℚ
  maxLat : ℚ

/-- The hard-excluded field rectangle (`FIELD_BOUNDS`). -/
def FIELD_BOUNDS : Bounds :=
  { minLng := -86.1649, maxLng := -86.1623, minLat := 39.7593, maxLat := 39.7609 }

/-- Cheap axis-aligned exclusion-zone test (`isInRestrictedField`); all
four comparisons are strict, as in the source. -/
def isInRestrictedField (lng lat : ℚ) : Bool :=
  decide (lng > FIELD_BOUNDS.minLng) && decide (lng < FIELD_BOUNDS.maxLng) &&
  decide (lat > FIELD_BOUNDS.minLat) && decide (lat < FIELD_BOUNDS.maxLat)

/-- The `Math.random()` draws consumed by one call to `getRandomPos`:
`a` selects the branch (`isEast` / `section`), `b` and `c` are the
longitude and latitude offsets.  Each lies in `[0, 1)`. -/
structure PosRand where
  a : ℚ
  b : ℚ
  c : ℚ
deriving DecidableEq, Repr

/-- The draws of a `PosRand` all lie in `[0, 1)`, the range of
`Math.random()`. -/
def validPosRand (r : PosRand) : Prop :=
  0 ≤ r.a ∧ r.a < 1 ∧ 0 ≤ r.b ∧ r.b < 1 ∧ 0 ≤ r.c ∧ r.c < 1

instance (r : PosRand) : Decidable (validPosRand r) := by
  unfold validPosRand; infer_instance

/-- Legal position sampler (`getRandomPos`): a concourse strip when the
preference is `concourse`, otherwise one of the four seating bands
around the field, selected by the `section` draw. -/
def getRandomPos (zonePreference : Option String) (r : PosRand) : Pos :=
  if zonePreference == some "concourse" then
    let isEast := r.a > 0.5
    { longitude := if isEast then -86.1618 + r.b * 0.0003 else -86.1654 + r.b * 0.0003
      latitude := 39.7592 + r.c * 0.0018 }
  else if r.a < 0.25 then
    { longitude := -86.1652 + r.b * 0.0030, latitude := 39.7610 + r.c * 0.0004 }
  else if r.a < 0.5 then
    { longitude := -86.1652 + r.b * 0.0030, latitude := 39.7586 + r.c * 0.0006 }
  else if r.a < 0.75 then
    { longitude := -86.1621 + r.b * 0.0006, latitude := 39.7594 + r.c * 0.0014 }
  else
    { longitude := -86.1656 + r.b * 0.0006, latitude := 39.7594 + r.c * 0.0014 }

/-- Concession item pools (`STADIUM_ITEMS`, `ALCOHOL_ITEMS`). -/
def STADIUM_ITEMS : List String :=
  ["Hot Dog", "Nachos", "Pretzel", "Popcorn", "Soda", "Water",
   "Foam Finger", "Jersey", "Program"]

/-- Alcohol pool; `Beer` appears twice, as in the source. -/
def ALCOHOL_ITEMS : List String := ["Beer", "Beer", "Hard Seltzer", "Mixed Drink"]

/-! ## Prediction generator -/

/-- A live prediction record.  The `time` display string of the source
(a wall-clock locale rendering for the UI) is omitted; every field the
engine reads is present. -/
structure Prediction where
  id : String
  timestamp : ℤ
  entityId : String
  entityName : String
  prediction : String
  confidence : ℤ
  factors : List String
  action : String
  priority : String
  icon : String
deriving DecidableEq, Repr

/-- Suggested action / priority / icon for a pattern. -/
structure ActionInfo where
  action : String
  priority : String
  icon : String
deriving DecidableEq, Repr

/-- Static pattern lookup table (`PREDICTION_ACTIONS`). -/
def PREDICTION_ACTIONS : List (String × ActionInfo) :=
  [("ZONE_BREACH_IMMINENT", ⟨"Deploy security to perimeter", "HIGH", "alert"⟩),
   ("ALTERCATION_RISK", ⟨"Alert nearby staff for intervention", "HIGH", "users"⟩),
   ("FIELD_RUSH_VECTOR", ⟨"Position guards at field access points", "CRITICAL", "alert"⟩),
   ("INTOXICATION_MONITOR", ⟨"Flag for beverage service cutoff", "MEDIUM", "beer"⟩),
   ("BEHAVIORAL_PATTERN_MATCH", ⟨"Increase surveillance on subject", "MEDIUM", "eye"⟩),
   ("ANOMALY_DETECTED", ⟨"Continue monitoring, gather data", "LOW", "scan"⟩)]

/-- The duplicate test inside `addPrediction`: an existing prediction
for the same `(entityId, prediction)` pair created within the last
10000 ms. -/
def isDupFor (prev : List Prediction) (entityId prediction : String) (now : ℤ) : Bool :=
  prev.any fun p =>
    p.entityId == entityId && p.prediction == prediction &&
    decide (now - p.timestamp < 10000)

/-- The record `addPrediction` builds for a non-duplicate insertion. -/
def mkNewPred (entity : Entity) (prediction : String) (confidence : ℤ) (now : ℤ) :
    Prediction :=
  let actionInfo :=
    ((PREDICTION_ACTIONS.lookup prediction).getD
      ⟨"Monitor situation", "LOW", "activity"⟩)
  { id := entity.id ++ "-" ++ prediction ++ "-" ++ toString now
    timestamp := now
    entityId := entity.id
    entityName := entity.name
    prediction := prediction
    confidence := confidence
    factors := entity.threatFactors
    action := actionInfo.action
    priority := actionInfo.priority
    icon := actionInfo.icon }

/-- `addPrediction`: suppress duplicates within the 10-second cooldown,
otherwise prepend the new prediction and truncate to 5 entries
(`[newPred, ...prev].slice(0, 5)`).  `now` stands for the `Date.now()`
value of the call. -/
def addPrediction (prev : List Prediction) (entity : Entity) (prediction : String)
    (confidence : ℤ) (now : ℤ) : List Prediction :=
  if isDupFor prev entity.id prediction now then prev
  else (mkNewPred entity prediction confidence now :: prev).take 5

/-- Operator dismissal (`dismissPrediction`): remove by id. -/
def dismissPrediction (predictions : List Prediction) (predId : String) :
    List Prediction :=
  predictions.filter fun p => !(p.id == predId)

/-- Operator watchlist toggle (`toggleWatchlist`): flip
`session.isWatched` of the matching entity, leave all else unchanged. -/
def toggleWatchlist (entities : List Entity) (entityId : String) : List Entity :=
  entities.map fun e =>
    if e.id == entityId then
      { e with session := { e.session with isWatched := !e.session.isWatched } }
    else e

/-- High-risk pattern pool of the prediction branch. -/
def HIGH_RISK_PREDS : List String :=
  ["ZONE_BREACH_IMMINENT", "ALTERCATION_RISK", "FIELD_RUSH_VECTOR"]

/-- Pattern selection decision list of the tick's prediction branch
(the body under `threat.score >= 40 && Math.random() > 0.96`), with the
two `Math.random()` draws explicit.  Confidences are the `Math.floor`
values, as integers. -/
def selectPrediction (score alcoholCount priorIncidents : ℕ)
    (choiceRoll confRoll : ℚ) : String × ℤ :=
  if score ≥ 60 then
    (HIGH_RISK_PREDS.getD (⌊choiceRoll * 3⌋).toNat "ZONE_BREACH_IMMINENT",
     ⌊(70 : ℚ) + confRoll * 25⌋)
  else if alcoholCount ≥ 3 then
    ("INTOXICATION_MONITOR", ⌊(50 : ℚ) + (alcoholCount : ℚ) * 8⌋)
  else if priorIncidents > 0 then
    ("BEHAVIORAL_PATTERN_MATCH", ⌊(45 : ℚ) + confRoll * 30⌋)
  else
    ("ANOMALY_DETECTED", ⌊(40 : ℚ) + confRoll * 25⌋)

/-- The tick's prediction gate: a prediction is attempted only when the
threat score is at least 40 and the 4% sampling roll passes. -/
def tickPredict (score alcoholCount priorIncidents : ℕ)
    (fireRoll choiceRoll confRoll : ℚ) : Option (String × ℤ) :=
  if decide (score ≥ 40) && decide (fireRoll > 0.96) then
    some (selectPrediction score alcoholCount priorIncidents choiceRoll confRoll)
  else none

/-! ## Simulation tick (per-entity update) -/

/-- All `Math.random()` draws one entity's tick update may consume, plus
`distOracle`, which stands for the floating `Math.sqrt(dLon*dLon +
dLat*dLat)` (irrational over `ℚ`, so supplied as an oracle; every
theorem below holds for every oracle value). -/
structure TickRand where
  teleportPos : PosRand
  teleportTarget : PosRand
  targetFix : PosRand
  idleRoll : ℚ
  idleDur : ℚ
  distOracle : ℚ
  halfRoll : ℚ
  arriveConc : PosRand
  arriveNorm : PosRand
  vipRedirect : PosRand
  fieldRedirect : PosRand
  purchaseRoll : ℚ
  beerRoll : ℚ
  drinkChoice : ℚ
  itemChoice : ℚ
  statusRoll : ℚ
  statusKindRoll : ℚ
  predFire : ℚ
  predChoice : ℚ
  predConf : ℚ

/-- All position-producing draws of a `TickRand` are in `[0, 1)`. -/
def validTickRand (r : TickRand) : Prop :=
  validPosRand r.teleportPos ∧ validPosRand r.teleportTarget ∧
  validPosRand r.targetFix ∧ validPosRand r.arriveConc ∧
  validPosRand r.arriveNorm ∧ validPosRand r.vipRedirect ∧
  validPosRand r.fieldRedirect

/-- Containment correction (first step of the tick): an unauthorized
entity found inside the restricted field is teleported to a fresh legal
position. -/
def correctedPos (e : Entity) (isAuthorized : Bool) (r : TickRand) : Pos :=
  if isInRestrictedField e.longitude e.latitude && !isAuthorized then
    getRandomPos none r.teleportPos
  else ⟨e.longitude, e.latitude⟩

/-- Target sanitation: the teleported entity also receives a fresh
target, and any target inside the restricted field is resampled for
unauthorized entities. -/
def correctedTarget (e : Entity) (isAuthorized : Bool) (r : TickRand) : Pos :=
  let t0 :=
    if isInRestrictedField e.longitude e.latitude && !isAuthorized then
      getRandomPos none r.teleportTarget
    else e.target
  if isInRestrictedField t0.longitude t0.latitude && !isAuthorized then
    getRandomPos none r.targetFix
  else t0

/-- Movement step of the tick: arrival handling (target resample, with
a halftime concourse bias) or a validated step toward the target.  A
step landing in the restricted field (unauthorized) or a VIP zone
(without VIP/staff/media credential) is discarded and the target
resampled.  Returns the new position and target. -/
def moveStep (currentPhase : String) (p0 tgt : Pos) (status ticketType : String)
    (isAuthorized : Bool) (r : TickRand) : Pos × Pos :=
  let dLon := tgt.longitude - p0.longitude
  let dLat := tgt.latitude - p0.latitude
  let dist := r.distOracle
  if dist < MOVEMENT_SPEED * 2 then
    (p0,
     if currentPhase == "HALFTIME" && r.halfRoll > 0.5 then
       getRandomPos (some "concourse") r.arriveConc
     else getRandomPos none r.arriveNorm)
  else
    let speed := if status == "rushing" then MOVEMENT_SPEED * 2 else MOVEMENT_SPEED
    let newLon := p0.longitude + dLon / dist * speed
    let newLat := p0.latitude + dLat / dist * speed
    if !(isInRestrictedField newLon newLat) || isAuthorized then
      if (getZoneForPoint newLon newLat).zoneType == "vip"
         && !(ticketType == "vip") && !isAuthorized then
        (p0, getRandomPos none r.vipRedirect)
      else (⟨newLon, newLat⟩, tgt)
    else (p0, getRandomPos none r.fieldRedirect)

/-- One entity's update inside the simulation tick (the `setEntities`
updater body): containment correction, target sanitation, idle hold and
onset, movement, zone-visit bookkeeping, concourse purchases, behaviour
relapse, re-scoring, and the prediction attempt.  Log-feed emissions
(`addLog`) are external collaborators and produce no engine state, so
they are not modelled.  Returns the updated entity together with the
prediction request handed to `addPrediction` (pattern and confidence),
if any. -/
def tickEntity (currentPhase : String) (e : Entity) (r : TickRand) :
    Entity × Option (String × ℤ) :=
  let isAuthorized := ["staff", "media"].contains e.ticketType
  let p0 := correctedPos e isAuthorized r
  let tgt1 := correctedTarget e isAuthorized r
  if e.waitTicks > 0 then
    ({ e with
        waitTicks := e.waitTicks - 1
        longitude := p0.longitude
        latitude := p0.latitude
        target := tgt1 }, none)
  else if r.idleRoll > 0.97 && e.status == "normal" then
    ({ e with
        status := "loitering"
        waitTicks := (⌊r.idleDur * 8⌋).toNat + 3
        longitude := p0.longitude
        latitude := p0.latitude
        target := tgt1 }, none)
  else
    let mv := moveStep currentPhase p0 tgt1 e.status e.ticketType isAuthorized r
    let zone := getZoneForPoint mv.1.longitude mv.1.latitude
    let session1 :=
      if !(e.session.zonesVisited.contains zone.id) then
        { e.session with zonesVisited := e.session.zonesVisited ++ [zone.id] }
      else e.session
    let purchaseChance : ℚ := if currentPhase == "HALFTIME" then 0.88 else 0.96
    let purch :=
      if zone.zoneType == "concourse" && r.purchaseRoll > purchaseChance then
        let isBeer :=
          if e.history.alcoholPattern == "heavy" then r.beerRoll > 0.3
          else r.beerRoll > 0.6
        if isBeer && session1.alcoholCount < 8 then
          (e.inventory ++ [ALCOHOL_ITEMS.getD (⌊r.drinkChoice * 4⌋).toNat "Beer"],
           { session1 with alcoholCount := session1.alcoholCount + 1 })
        else
          let item := STADIUM_ITEMS.getD (⌊r.itemChoice * 9⌋).toNat "Hot Dog"
          if !(e.inventory.contains item) then (e.inventory ++ [item], session1)
          else (e.inventory, session1)
      else (e.inventory, session1)
    let status1 :=
      if r.statusRoll > 0.995 then
        (if r.statusKindRoll > 0.7 then "rushing" else "normal")
      else e.status
    let tempEntity :=
      { e with
          longitude := mv.1.longitude
          latitude := mv.1.latitude
          inventory := purch.1
          session := purch.2
          status := status1 }
    let threat := calculateThreatScore tempEntity currentPhase
    let predOut := tickPredict threat.score purch.2.alcoholCount
      e.history.priorIncidents r.predFire r.predChoice r.predConf
    ({ tempEntity with
        target := mv.2
        threatScore := threat.score
        threatLevel := threat.level
        threatFactors := threat.factors }, predOut)

/-! ## Geometry lemmas -/

/-- Even-odd ray casting on a closed axis-aligned rectangle ring
`[(x1,y2),(x2,y2),(x2,y1),(x1,y1),(x1,y2)]` (the shape of every ring in
`geoJsonData`) accepts exactly the half-open box
`[x1, x2) × [y1, y2)`. -/
theorem pip_rect (x1 x2 y1 y2 x y : ℚ) (hx : x1 < x2) (hy : y1 < y2) :
    isPointInPolygon (x, y) [(x1, y2), (x2, y2), (x2, y1), (x1, y1), (x1, y2)] = true ↔
      (x1 ≤ x ∧ x < x2 ∧ y1 ≤ y ∧ y < y2) := by
  have main : isPointInPolygon (x, y)
      [(x1, y2), (x2, y2), (x2, y1), (x1, y1), (x1, y2)] = true ↔
      (¬(x < x1) ∧ x < x2 ∧ ¬(y < y1) ∧ y < y2) := by
    simp only [isPointInPolygon, List.getLastD, List.zip, List.zipWith, List.foldl, edgeFlip]
    by_cases h3 : x < x1 <;> by_cases h4 : x < x2 <;>
      by_cases h1 : y < y1 <;> by_cases h2 : y < y2 <;>
      simp [h1, h2, h3, h4] <;> linarith
  rw [main, not_lt, not_lt]

/-- Membership in the Stadium Bowl ring. -/
theorem mem_bowl (x y : ℚ) : isPointInPolygon (x, y) bowlRing = true ↔
    (-86.1655 ≤ x ∧ x < -86.1617 ∧ 39.7588 ≤ y ∧ y < 39.7615) := by
  simpa [bowlRing] using
    pip_rect (-86.1655) (-86.1617) 39.7588 39.7615 x y (by norm_num) (by norm_num)

/-- Membership in the Field Level ring. -/
theorem mem_field (x y : ℚ) : isPointInPolygon (x, y) fieldRing = true ↔
    (-86.1648 ≤ x ∧ x < -86.1624 ∧ 39.7594 ≤ y ∧ y < 39.7608) := by
  simpa [fieldRing] using
    pip_rect (-86.1648) (-86.1624) 39.7594 39.7608 x y (by norm_num) (by norm_num)

/-- Membership in the Team Tunnel ring. -/
theorem mem_tunnel (x y : ℚ) : isPointInPolygon (x, y) tunnelRing = true ↔
    (-86.1638 ≤ x ∧ x < -86.1634 ∧ 39.7588 ≤ y ∧ y < 39.7594) := by
  simpa [tunnelRing] using
    pip_rect (-86.1638) (-86.1634) 39.7588 39.7594 x y (by norm_num) (by norm_num)

/-- Membership in the VIP Suites North ring. -/
theorem mem_vipNorth (x y : ℚ) : isPointInPolygon (x, y) vipNorthRing = true ↔
    (-86.1650 ≤ x ∧ x < -86.1622 ∧ 39.7611 ≤ y ∧ y < 39.7615) := by
  simpa [vipNorthRing] using
    pip_rect (-86.1650) (-86.1622) 39.7611 39.7615 x y (by norm_num) (by norm_num)

/-- Membership in the VIP Suites South ring. -/
theorem mem_vipSouth (x y : ℚ) : isPointInPolygon (x, y) vipSouthRing = true ↔
    (-86.1650 ≤ x ∧ x < -86.1622 ∧ 39.7587 ≤ y ∧ y < 39.7591) := by
  simpa [vipSouthRing] using
    pip_rect (-86.1650) (-86.1622) 39.7587 39.7591 x y (by norm_num) (by norm_num)

/-- Membership in the East Concourse ring. -/
theorem mem_concourseEast (x y : ℚ) : isPointInPolygon (x, y) concourseEastRing = true ↔
    (-86.1620 ≤ x ∧ x < -86.1615 ∧ 39.7590 ≤ y ∧ y < 39.7612) := by
  simpa [concourseEastRing] using
    pip_rect (-86.1620) (-86.1615) 39.7590 39.7612 x y (by norm_num) (by norm_num)

/-- Membership in the West Concourse ring. -/
theorem mem_concourseWest (x y : ℚ) : isPointInPolygon (x, y) concourseWestRing = true ↔
    (-86.1657 ≤ x ∧ x < -86.1652 ∧ 39.7590 ≤ y ∧ y < 39.7612) := by
  simpa [concourseWestRing] using
    pip_rect (-86.1657) (-86.1652) 39.7590 39.7612 x y (by norm_num) (by norm_num)

/-- The origin lies outside every feature ring, so it resolves to the
synthetic outside zone. -/
theorem getZone_origin : getZoneForPoint 0 0 = ⟨"Outside", "outside", none⟩ := by
  have h1 : isPointInPolygon ((0 : ℚ), (0 : ℚ)) bowlRing = false :=
    Bool.eq_false_iff.mpr (fun h => by
      rcases (mem_bowl 0 0).mp h with ⟨-, hb, -, -⟩; norm_num at hb)
  have h2 : isPointInPolygon ((0 : ℚ), (0 : ℚ)) fieldRing = false :=
    Bool.eq_false_iff.mpr (fun h => by
      rcases (mem_field 0 0).mp h with ⟨-, hb, -, -⟩; norm_num at hb)
  have h3 : isPointInPolygon ((0 : ℚ), (0 : ℚ)) vipNorthRing = false :=
    Bool.eq_false_iff.mpr (fun h => by
      rcases (mem_vipNorth 0 0).mp h with ⟨-, hb, -, -⟩; norm_num at hb)
  have h4 : isPointInPolygon ((0 : ℚ), (0 : ℚ)) vipSouthRing = false :=
    Bool.eq_false_iff.mpr (fun h => by
      rcases (mem_vipSouth 0 0).mp h with ⟨-, hb, -, -⟩; norm_num at hb)
  have h5 : isPointInPolygon ((0 : ℚ), (0 : ℚ)) tunnelRing = false :=
    Bool.eq_false_iff.mpr (fun h => by
      rcases (mem_tunnel 0 0).mp h with ⟨-, hb, -, -⟩; norm_num at hb)
  have h6 : isPointInPolygon ((0 : ℚ), (0 : ℚ)) concourseEastRing = false :=
    Bool.eq_false_iff.mpr (fun h => by
      rcases (mem_concourseEast 0 0).mp h with ⟨-, hb, -, -⟩; norm_num at hb)
  have h7 : isPointInPolygon ((0 : ℚ), (0 : ℚ)) concourseWestRing = false :=
    Bool.eq_false_iff.mpr (fun h => by
      rcases (mem_concourseWest 0 0).mp h with ⟨-, hb, -, -⟩; norm_num at hb)
  simp only [getZoneForPoint, geoJsonFeatures, List.find?, h1, h2, h3, h4, h5, h6, h7]

/-- Every point accepted by the Field Level ring is accepted by the
Stadium Bowl ring: the bowl polygon geometrically contains the field
polygon. -/
theorem field_subset_bowl {x y : ℚ} (h : isPointInPolygon (x, y) fieldRing = true) :
    isPointInPolygon (x, y) bowlRing = true := by
  rcases (mem_field x y).mp h with ⟨h1, h2, h3, h4⟩
  exact (mem_bowl x y).mpr ⟨by linarith, by linarith, by linarith, by linarith⟩

/-- Every point accepted by the Team Tunnel ring is accepted by the
Stadium Bowl ring: the bowl polygon geometrically contains the tunnel
polygon. -/
theorem tunnel_subset_bowl {x y : ℚ} (h : isPointInPolygon (x, y) tunnelRing = true) :
    isPointInPolygon (x, y) bowlRing = true := by
  rcases (mem_tunnel x y).mp h with ⟨h1, h2, h3, h4⟩
  exact (mem_bowl x y).mpr ⟨by linarith, by linarith, by linarith, by linarith⟩

/-- Properties of the Stadium Bowl feature. -/
def bowlProps : ZoneProps := ⟨"Stadium Bowl", "public", some "bowl"⟩

/-- A point inside the bowl ring resolves to the Stadium Bowl: the bowl
is the first feature tested. -/
theorem getZone_bowl {x y : ℚ} (h : isPointInPolygon (x, y) bowlRing = true) :
    getZoneForPoint x y = bowlProps := by
  simp [getZoneForPoint, geoJsonFeatures, List.find?, h, bowlProps]

/-- The zone lookup never yields the `critical` or the `restricted`
zone type: the features carrying those types (Team Tunnel, Field Level)
are geometrically inside the Stadium Bowl feature, which is tested
first. -/
theorem zoneType_never_elevated (x y : ℚ) :
    (getZoneForPoint x y).zoneType ≠ "critical" ∧
    (getZoneForPoint x y).zoneType ≠ "restricted" := by
  by_cases hb : isPointInPolygon (x, y) bowlRing = true
  · rw [getZone_bowl hb]; exact ⟨by decide, by decide⟩
  · have hb' : isPointInPolygon (x, y) bowlRing = false :=
      Bool.eq_false_iff.mpr hb
    have hf : isPointInPolygon (x, y) fieldRing = false :=
      Bool.eq_false_iff.mpr (fun h => hb (field_subset_bowl h))
    have ht : isPointInPolygon (x, y) tunnelRing = false :=
      Bool.eq_false_iff.mpr (fun h => hb (tunnel_subset_bowl h))
    by_cases hvn : isPointInPolygon (x, y) vipNorthRing = true <;>
      by_cases hvs : isPointInPolygon (x, y) vipSouthRing = true <;>
      by_cases hce : isPointInPolygon (x, y) concourseEastRing = true <;>
      by_cases hcw : isPointInPolygon (x, y) concourseWestRing = true <;>
      simp [getZoneForPoint, geoJsonFeatures, List.find?, hb', hf, ht,
        hvn, hvs, hce, hcw]

/-- The appended-numeral factor label of the prior-incidents branch can
never equal a fixed label that does not end in a closing parenthesis. -/
theorem prior_label_ne (n : ℕ) (t : String)
    (ht : t.data.getLast? ≠ some ')') : toString n ++ " Prior Incident(s)" ≠ t := by
  intro h
  have hd : (toString n).data ++ " Prior Incident(s)".data = t.data := by
    rw [← String.data_append, h]
  have hlast := congrArg List.getLast? hd
  rw [List.getLast?_append] at hlast
  · exact ht (by simpa using hlast.symm)

/-- Because the current zone is never `critical` or `restricted`, the
zone-violation branch of the scorer only ever contributes the VIP
mismatch or nothing. -/
theorem zoneContrib_cases (e : Entity) :
    zoneContrib e = (20, ["VIP Zone - No Auth"]) ∨ zoneContrib e = (0, []) := by
  have hz := zoneType_never_elevated e.longitude e.latitude
  have h1 : ((getZoneForPoint e.longitude e.latitude).zoneType == "critical") = false := by
    simpa using hz.1
  have h2 : ((getZoneForPoint e.longitude e.latitude).zoneType == "restricted") = false := by
    simpa using hz.2
  simp only [zoneContrib, h1, h2, Bool.false_and, Bool.false_eq_true, if_false]
  split_ifs <;> simp

/-- Neither the critical-zone nor the restricted-zone factor label ever
appears in a scorer result. -/
theorem factors_no_elevated (e : Entity) (ph : String) :
    "CRITICAL ZONE VIOLATION" ∉ (calculateThreatScore e ph).factors ∧
    "Restricted Zone Access" ∉ (calculateThreatScore e ph).factors := by
  have hz := zoneContrib_cases e
  constructor <;>
  · simp only [calculateThreatScore, List.mem_append, not_or]
    refine ⟨⟨⟨⟨⟨⟨⟨?_, ?_⟩, ?_⟩, ?_⟩, ?_⟩, ?_⟩, ?_⟩, ?_⟩
    all_goals
      first
      | (rcases hz with h | h <;> simp [h])
      | (simp only [watchlistContrib]; split_ifs <;> simp)
      | (simp only [priorContrib]; split_ifs <;>
          simp <;> exact fun h => prior_label_ne _ _ (by decide) h.symm)
      | (simp only [alcoholHistoryContrib]; split_ifs <;> simp)
      | (simp only [drinksContrib]; split_ifs <;> simp)
      | (simp only [rushingContrib]; split_ifs <;> simp)
      | (simp only [loiteringContrib]; split_ifs <;> simp)
      | (simp only [watchedContrib]; split_ifs <;> simp)

/-- C2: every point strictly inside the Field Level (restricted)
polygon or the Team Tunnel (critical) polygon resolves to the Stadium
Bowl (public) feature, because the bowl ring geometrically contains
both rings and is tested first in the fixed feature order; consequently
the +45 critical and +30 restricted contributions of
`calculateThreatScore` are unreachable: the zone branch only ever
yields the VIP mismatch or nothing, and neither elevated-zone factor
label ever appears for any entity and phase. -/
theorem c2_bowl_shadows_field_and_tunnel :
    (∀ x y : ℚ,
      ((-86.1648 < x ∧ x < -86.1624 ∧ 39.7594 < y ∧ y < 39.7608) ∨
       (-86.1638 < x ∧ x < -86.1634 ∧ 39.7588 < y ∧ y < 39.7594)) →
      getZoneForPoint x y = bowlProps) ∧
    (∀ e : Entity, (zoneContrib e).1 ≠ 45 ∧ (zoneContrib e).1 ≠ 30) ∧
    (∀ (e : Entity) (ph : String),
      "CRITICAL ZONE VIOLATION" ∉ (calculateThreatScore e ph).factors ∧
      "Restricted Zone Access" ∉ (calculateThreatScore e ph).factors) := by
  refine ⟨?_, ?_, factors_no_elevated⟩
  · rintro x y (⟨h1, h2, h3, h4⟩ | ⟨h1, h2, h3, h4⟩) <;>
      exact getZone_bowl ((mem_bowl x y).mpr
        ⟨by linarith, by linarith, by linarith, by linarith⟩)
  · intro e
    rcases zoneContrib_cases e with h | h <;> simp [h]

/-- Witness for C2: a concrete point strictly inside the Team Tunnel
ring resolves to the Stadium Bowl. -/
theorem c2_bowl_shadows_field_and_tunnel_witness :
    getZoneForPoint (-86.1636) 39.7590 = bowlProps :=
  c2_bowl_shadows_field_and_tunnel.1 (-86.1636) 39.7590
    (Or.inr ⟨by norm_num, by norm_num, by norm_num, by norm_num⟩)

/-! ## C1: the spec's critical-zone end-to-end example -/

/-- An agent exactly as in the spec's end-to-end example: high
watchlist tier, two prior incidents, `general` credential, positioned
strictly inside the Team Tunnel (critical) polygon. -/
def c1Entity : Entity :=
  { id := "fan-1000"
    name := "Mike A."
    ticketType := "general"
    longitude := -86.1636
    latitude := 39.7590
    target := ⟨-86.1636, 39.7590⟩
    status := "normal"
    waitTicks := 0
    inventory := []
    history := { priorIncidents := 2, watchlistStatus := "high", alcoholPattern := "normal" }
    session := { alcoholCount := 0, zonesVisited := [], isWatched := false }
    threatScore := 0
    threatLevel := "LOW"
    threatFactors := [] }

/-- C1 (divergence witness): for the spec's end-to-end example agent —
inside the Team Tunnel polygon, `watchlistTier=high`,
`priorIncidentCount=2`, credential `general` — the code resolves the
position to the Stadium Bowl (`public`) because the bowl feature is
tested first and geometrically contains the tunnel, so the scorer
returns `35 + 24 = 59`, tier `HIGH`, without the
"CRITICAL ZONE VIOLATION" factor, not the claimed clamped `100` /
`CRITICAL`. -/
theorem c1_code_behavior_at_tunnel_point :
    isPointInPolygon (c1Entity.longitude, c1Entity.latitude) tunnelRing = true ∧
    (getZoneForPoint c1Entity.longitude c1Entity.latitude).zoneType = "public" ∧
    calculateThreatScore c1Entity "Q1" =
      ⟨59, "HIGH", ["HIGH WATCHLIST", "2 Prior Incident(s)"]⟩ := by
  have hmem : isPointInPolygon ((-86.1636 : ℚ), (39.7590 : ℚ)) tunnelRing = true :=
    (mem_tunnel _ _).mpr (by norm_num)
  have hbowl : getZoneForPoint c1Entity.longitude c1Entity.latitude = bowlProps :=
    getZone_bowl ((mem_bowl _ _).mpr (by norm_num [c1Entity]))
  refine ⟨hmem, ?_, ?_⟩
  · rw [hbowl]; rfl
  · simp only [calculateThreatScore, zoneContrib, loiteringContrib, hbowl]
    decide

/-! ## C7: tier thresholds -/

/-- The spec's tier mapping, read off the spec's words: thresholds at
70, 45 and 25 on the clamped score.  Used to compare against the
source's `level` field. -/
def tierOfSpec (s : ℕ) : String :=
  if s ≥ 70 then "CRITICAL"
  else if s ≥ 45 then "HIGH"
  else if s ≥ 25 then "MEDIUM"
  else "LOW"

/-- Severity order of the tier names, for stating monotonicity. -/
def tierRank (t : String) : ℕ :=
  if t == "CRITICAL" then 3
  else if t == "HIGH" then 2
  else if t == "MEDIUM" then 1
  else 0

/-- The scorer's raw (pre-clamp) sum. -/
def rawScore (e : Entity) : ℕ :=
  (watchlistContrib e).1 + (priorContrib e).1 + (alcoholHistoryContrib e).1
    + (drinksContrib e).1 + (zoneContrib e).1 + (rushingContrib e).1
    + (loiteringContrib e).1 + (watchedContrib e).1

/-- The returned score is the clamp of the raw sum. -/
theorem score_eq (e : Entity) (ph : String) :
    (calculateThreatScore e ph).score = min 100 (rawScore e) := rfl

/-- The returned level is the threshold function of the raw sum. -/
theorem level_eq (e : Entity) (ph : String) :
    (calculateThreatScore e ph).level =
      (if rawScore e ≥ 70 then "CRITICAL"
       else if rawScore e ≥ 45 then "HIGH"
       else if rawScore e ≥ 25 then "MEDIUM"
       else "LOW") := rfl

/-- C7: the returned score always lies in `[0, 100]` (it is a natural
number clamped at 100), the returned tier is exactly the spec's step
function of the clamped score with thresholds 25, 45, 70, and that step
function is non-decreasing in the score. -/
theorem c7_tier_is_step_function_of_clamped_score :
    ∀ (e : Entity) (ph : String),
      (calculateThreatScore e ph).score ≤ 100 ∧
      (calculateThreatScore e ph).level = tierOfSpec (calculateThreatScore e ph).score ∧
      (∀ s t : ℕ, s ≤ t → tierRank (tierOfSpec s) ≤ tierRank (tierOfSpec t)) := by
  intro e ph
  refine ⟨by rw [score_eq]; exact min_le_left _ _, ?_, ?_⟩
  · rw [level_eq, score_eq, tierOfSpec]
    split_ifs <;> first | rfl | omega
  · intro s t hst
    simp only [tierOfSpec, tierRank]
    split_ifs <;> simp_all <;> omega

/-- Witness for C7 at a concrete entity, score pair. -/
theorem c7_tier_is_step_function_of_clamped_score_witness :
    (0 : ℕ) ≤ 70 ∧ tierRank (tierOfSpec 0) ≤ tierRank (tierOfSpec 70) :=
  ⟨by decide,
   (c7_tier_is_step_function_of_clamped_score c1Entity "Q1").2.2 0 70 (by decide)⟩

/-! ## C8: score monotonicity -/

/-- Componentwise monotone contributions give a monotone clamped
score. -/
theorem score_mono_of_contribs {e e' : Entity} (ph : String)
    (h1 : (watchlistContrib e).1 ≤ (watchlistContrib e').1)
    (h2 : (priorContrib e).1 ≤ (priorContrib e').1)
    (h3 : (alcoholHistoryContrib e).1 ≤ (alcoholHistoryContrib e').1)
    (h4 : (drinksContrib e).1 ≤ (drinksContrib e').1)
    (h5 : (zoneContrib e).1 ≤ (zoneContrib e').1)
    (h6 : (rushingContrib e).1 ≤ (rushingContrib e').1)
    (h7 : (loiteringContrib e).1 ≤ (loiteringContrib e').1)
    (h8 : (watchedContrib e).1 ≤ (watchedContrib e').1) :
    (calculateThreatScore e ph).score ≤ (calculateThreatScore e' ph).score := by
  rw [score_eq, score_eq]
  unfold rawScore
  omega

/-- C8: holding all other fields and the phase fixed, the score is
monotone non-decreasing in `drinksConsumed` (`session.alcoholCount`)
and in `priorIncidentCount`, does not decrease when the watchlist tier
rises `none` to `low` to `high`, and does not decrease when the
operator flag flips from `false` to `true`. -/
theorem c8_score_monotonicity :
    (∀ (e : Entity) (ph : String) (c c' : ℕ), c ≤ c' →
      (calculateThreatScore { e with session := { e.session with alcoholCount := c } } ph).score ≤
      (calculateThreatScore { e with session := { e.session with alcoholCount := c' } } ph).score) ∧
    (∀ (e : Entity) (ph : String) (k k' : ℕ), k ≤ k' →
      (calculateThreatScore { e with history := { e.history with priorIncidents := k } } ph).score ≤
      (calculateThreatScore { e with history := { e.history with priorIncidents := k' } } ph).score) ∧
    (∀ (e : Entity) (ph : String),
      (calculateThreatScore { e with history := { e.history with watchlistStatus := "none" } } ph).score ≤
      (calculateThreatScore { e with history := { e.history with watchlistStatus := "low" } } ph).score ∧
      (calculateThreatScore { e with history := { e.history with watchlistStatus := "low" } } ph).score ≤
      (calculateThreatScore { e with history := { e.history with watchlistStatus := "high" } } ph).score) ∧
    (∀ (e : Entity) (ph : String),
      (calculateThreatScore { e with session := { e.session with isWatched := false } } ph).score ≤
      (calculateThreatScore { e with session := { e.session with isWatched := true } } ph).score) := by
  refine ⟨?_, ?_, ?_, ?_⟩
  · intro e ph c c' h
    apply score_mono_of_contribs ph <;>
      first
      | exact le_of_eq rfl
      | (simp only [drinksContrib]; split_ifs <;> omega)
  · intro e ph k k' h
    apply score_mono_of_contribs ph <;>
      first
      | exact le_of_eq rfl
      | (simp only [priorContrib]; split_ifs <;> simp_all <;> omega)
  · intro e ph
    constructor <;>
      (apply score_mono_of_contribs ph <;>
        first
        | exact le_of_eq rfl
        | (simp only [watchlistContrib]; split_ifs <;> simp_all))
  · intro e ph
    apply score_mono_of_contribs ph <;>
      first
      | exact le_of_eq rfl
      | (simp only [watchedContrib]; split_ifs <;> simp_all)

/-- Witness for C8: raising the drink count of a concrete agent from 2
to 4 does not lower the score. -/
theorem c8_score_monotonicity_witness :
    (2 : ℕ) ≤ 4 ∧
    (calculateThreatScore { c1Entity with
        session := { c1Entity.session with alcoholCount := 2 } } "Q1").score ≤
    (calculateThreatScore { c1Entity with
        session := { c1Entity.session with alcoholCount := 4 } } "Q1").score :=
  ⟨by decide, c8_score_monotonicity.1 c1Entity "Q1" 2 4 (by decide)⟩

/-! ## C6: factor labels versus score contributions

Each branch of the scorer is itemized as the list of `(points, label?)`
pairs it fires, with `none` when the branch pushes no label. -/

/-- Itemized watchlist branch. -/
def watchlistItems (e : Entity) : List (ℕ × Option String) :=
  if e.history.watchlistStatus == "high" then [(35, some "HIGH WATCHLIST")]
  else if e.history.watchlistStatus == "low" then [(15, some "Low Watchlist")]
  else []

/-- Itemized prior-incidents branch. -/
def priorItems (e : Entity) : List (ℕ × Option String) :=
  if e.history.priorIncidents > 0 then
    [(e.history.priorIncidents * 12,
      some (toString e.history.priorIncidents ++ " Prior Incident(s)"))]
  else []

/-- Itemized heavy-alcohol-history branch. -/
def alcoholHistoryItems (e : Entity) : List (ℕ × Option String) :=
  if e.history.alcoholPattern == "heavy" then [(10, some "Heavy Drinker History")]
  else []

/-- Itemized session-drinks branch; the `>= 3` tier carries no label. -/
def drinksItems (e : Entity) : List (ℕ × Option String) :=
  if e.session.alcoholCount ≥ 6 then [(30, some "Excessive Alcohol (6+)")]
  else if e.session.alcoholCount ≥ 4 then [(18, some "High Alcohol (4+)")]
  else if e.session.alcoholCount ≥ 3 then [(8, none)]
  else []

/-- Itemized zone-violation branch. -/
def zoneItems (e : Entity) : List (ℕ × Option String) :=
  let zone := getZoneForPoint e.longitude e.latitude
  if zone.zoneType == "critical" && !(e.ticketType == "staff") then
    [(45, some "CRITICAL ZONE VIOLATION")]
  else if zone.zoneType == "restricted" && !(["staff", "media"].contains e.ticketType) then
    [(30, some "Restricted Zone Access")]
  else if zone.zoneType == "vip" && !(e.ticketType == "vip") && !(e.ticketType == "staff") then
    [(20, some "VIP Zone - No Auth")]
  else []

/-- Itemized rushing branch. -/
def rushingItems (e : Entity) : List (ℕ × Option String) :=
  if e.status == "rushing" then [(15, some "Rushing Behavior")] else []

/-- Itemized loitering branch. -/
def loiteringItems (e : Entity) : List (ℕ × Option String) :=
  if e.status == "loitering"
     && !((getZoneForPoint e.longitude e.latitude).zoneType == "concourse") then
    [(10, some "Loitering")]
  else []

/-- Itemized operator-flag branch. -/
def watchedItems (e : Entity) : List (ℕ × Option String) :=
  if e.session.isWatched then [(5, some "User Flagged")] else []

/-- The scorer's triggered contributions, in evaluation order. -/
def contribList (e : Entity) : List (ℕ × Option String) :=
  watchlistItems e ++ priorItems e ++ alcoholHistoryItems e ++ drinksItems e
    ++ zoneItems e ++ rushingItems e ++ loiteringItems e ++ watchedItems e

/-- Each itemized branch carries exactly the points and the pushed
labels of the corresponding scorer branch. -/
theorem items_match (e : Entity) :
    (((watchlistItems e).map Prod.fst).sum = (watchlistContrib e).1 ∧
      (watchlistItems e).filterMap Prod.snd = (watchlistContrib e).2) ∧
    (((priorItems e).map Prod.fst).sum = (priorContrib e).1 ∧
      (priorItems e).filterMap Prod.snd = (priorContrib e).2) ∧
    (((alcoholHistoryItems e).map Prod.fst).sum = (alcoholHistoryContrib e).1 ∧
      (alcoholHistoryItems e).filterMap Prod.snd = (alcoholHistoryContrib e).2) ∧
    (((drinksItems e).map Prod.fst).sum = (drinksContrib e).1 ∧
      (drinksItems e).filterMap Prod.snd = (drinksContrib e).2) ∧
    (((zoneItems e).map Prod.fst).sum = (zoneContrib e).1 ∧
      (zoneItems e).filterMap Prod.snd = (zoneContrib e).2) ∧
    (((rushingItems e).map Prod.fst).sum = (rushingContrib e).1 ∧
      (rushingItems e).filterMap Prod.snd = (rushingContrib e).2) ∧
    (((loiteringItems e).map Prod.fst).sum = (loiteringContrib e).1 ∧
      (loiteringItems e).filterMap Prod.snd = (loiteringContrib e).2) ∧
    (((watchedItems e).map Prod.fst).sum = (watchedContrib e).1 ∧
      (watchedItems e).filterMap Prod.snd = (watchedContrib e).2) := by
  refine ⟨?_, ?_, ?_, ?_, ?_, ?_, ?_, ?_⟩ <;> constructor <;>
    first
    | (simp only [watchlistItems, watchlistContrib]; split_ifs <;> simp)
    | (simp only [priorItems, priorContrib]; split_ifs <;> simp)
    | (simp only [alcoholHistoryItems, alcoholHistoryContrib]; split_ifs <;> simp)
    | (simp only [drinksItems, drinksContrib]; split_ifs <;> simp)
    | (simp only [zoneItems, zoneContrib]; split_ifs <;> simp)
    | (simp only [rushingItems, rushingContrib]; split_ifs <;> simp)
    | (simp only [loiteringItems, loiteringContrib]; split_ifs <;> simp)
    | (simp only [watchedItems, watchedContrib]; split_ifs <;> simp)

/-- C6 (amended): the returned score is the clamped sum of the
triggered contributions and the returned factor list is exactly the
labels of the triggered contributions in evaluation order, but not
every contribution carries a label — the only unlabeled one is the +8
session-drinks tier, which fires exactly when the session drink count
is 3. -/
theorem c6_factor_labels :
    ∀ (e : Entity) (ph : String),
      (calculateThreatScore e ph).score = min 100 (((contribList e).map Prod.fst).sum) ∧
      (calculateThreatScore e ph).factors = (contribList e).filterMap Prod.snd ∧
      (∀ c ∈ contribList e, c.2 = none → c.1 = 8 ∧ e.session.alcoholCount = 3) := by
  intro e ph
  obtain ⟨h1, h2, h3, h4, h5, h6, h7, h8⟩ := items_match e
  refine ⟨?_, ?_, ?_⟩
  · rw [score_eq]
    simp only [contribList, List.map_append, List.sum_append, rawScore,
      h1.1, h2.1, h3.1, h4.1, h5.1, h6.1, h7.1, h8.1]
  · show (watchlistContrib e).2 ++ (priorContrib e).2 ++ (alcoholHistoryContrib e).2
      ++ (drinksContrib e).2 ++ (zoneContrib e).2 ++ (rushingContrib e).2
      ++ (loiteringContrib e).2 ++ (watchedContrib e).2 = _
    simp only [contribList, List.filterMap_append,
      h1.2, h2.2, h3.2, h4.2, h5.2, h6.2, h7.2, h8.2]
  · intro c hc hnone
    simp only [contribList, List.mem_append] at hc
    rcases hc with ((((((hc | hc) | hc) | hc) | hc) | hc) | hc) | hc
    · simp only [watchlistItems] at hc; split_ifs at hc <;> simp_all
    · simp only [priorItems] at hc; split_ifs at hc <;> simp_all
    · simp only [alcoholHistoryItems] at hc; split_ifs at hc <;> simp_all
    · simp only [drinksItems] at hc
      split_ifs at hc with ha hb hd <;> simp_all <;> omega
    · simp only [zoneItems] at hc; split_ifs at hc <;> simp_all
    · simp only [rushingItems] at hc; split_ifs at hc <;> simp_all
    · simp only [loiteringItems] at hc; split_ifs at hc <;> simp_all
    · simp only [watchedItems] at hc; split_ifs at hc <;> simp_all

/-- An agent with exactly three session drinks and nothing else
notable, positioned outside every zone. -/
def c6Entity : Entity :=
  { id := "fan-1001"
    name := "John B."
    ticketType := "general"
    longitude := 0
    latitude := 0
    target := ⟨0, 0⟩
    status := "normal"
    waitTicks := 0
    inventory := []
    history := { priorIncidents := 0, watchlistStatus := "none", alcoholPattern := "normal" }
    session := { alcoholCount := 3, zonesVisited := [], isWatched := false }
    threatScore := 0
    threatLevel := "LOW"
    threatFactors := [] }

/-- C6 counterexample: for an agent with `alcoholCount = 3` the scorer
adds the +8 session-drinks contribution (the score rises from 0 to 8)
but appends no factor label at all, so not every score contribution
appends a label. -/
theorem c6_missing_label_for_three_drinks :
    (calculateThreatScore c6Entity "Q1").score = 8 ∧
    (calculateThreatScore c6Entity "Q1").factors = [] ∧
    (calculateThreatScore
      { c6Entity with session := { c6Entity.session with alcoholCount := 2 } } "Q1").score = 0 := by
  have hz : getZoneForPoint c6Entity.longitude c6Entity.latitude =
      ⟨"Outside", "outside", none⟩ := getZone_origin
  refine ⟨?_, ?_, ?_⟩ <;>
    simp only [calculateThreatScore, zoneContrib, loiteringContrib, hz] <;> decide

/-- Witness for the amended C6 at the concrete three-drinks agent: the
itemized contributions are exactly the unlabeled `(8, none)` entry, and
the theorem instantiates at it. -/
theorem c6_factor_labels_witness :
    contribList c6Entity = [(8, none)] ∧
    (8, (none : Option String)).1 = 8 ∧ c6Entity.session.alcoholCount = 3 := by
  have hz : getZoneForPoint c6Entity.longitude c6Entity.latitude =
      ⟨"Outside", "outside", none⟩ := getZone_origin
  have hmem : contribList c6Entity = [(8, none)] := by
    simp only [contribList, watchlistItems, priorItems, alcoholHistoryItems,
      drinksItems, zoneItems, rushingItems, loiteringItems, watchedItems, hz]
    decide
  exact ⟨hmem,
    (c6_factor_labels c6Entity "Q1").2.2 (8, none) (by rw [hmem]; exact List.mem_singleton.mpr rfl) rfl⟩

/-! ## C10: the operator watchlist toggle -/

/-- An unflagged agent whose raw score (35 watchlist + 60 prior
incidents + 10 heavy history = 105) already exceeds the clamp. -/
def c10Entity : Entity :=
  { id := "fan-1002"
    name := "Sarah C."
    ticketType := "general"
    longitude := 0
    latitude := 0
    target := ⟨0, 0⟩
    status := "normal"
    waitTicks := 0
    inventory := []
    history := { priorIncidents := 5, watchlistStatus := "high", alcoholPattern := "heavy" }
    session := { alcoholCount := 0, zonesVisited := [], isWatched := false }
    threatScore := 0
    threatLevel := "LOW"
    threatFactors := [] }

/-- C10 counterexample: toggling the operator flag on an agent whose
clamped score is already 100 leaves the score at 100 — not exactly 5
higher — because the +5 disappears in the `Math.min(100, score)`
clamp. -/
theorem c10_toggle_not_plus_five_at_clamp :
    toggleWatchlist [c10Entity] "fan-1002" =
      [{ c10Entity with session := { c10Entity.session with isWatched := true } }] ∧
    (calculateThreatScore c10Entity "Q1").score = 100 ∧
    (calculateThreatScore
      { c10Entity with session := { c10Entity.session with isWatched := true } } "Q1").score = 100 ∧
    ¬((calculateThreatScore
        { c10Entity with session := { c10Entity.session with isWatched := true } } "Q1").score =
      (calculateThreatScore c10Entity "Q1").score + 5) := by
  have hz : getZoneForPoint c10Entity.longitude c10Entity.latitude =
      ⟨"Outside", "outside", none⟩ := getZone_origin
  refine ⟨?_, ?_, ?_, ?_⟩
  · simp [toggleWatchlist, c10Entity]
  all_goals
    simp only [calculateThreatScore, zoneContrib, loiteringContrib, hz] <;> decide

/-- C10 (amended): toggling the operator watchlist flag from off to on
changes `session.isWatched` and no other agent field; re-scoring the
toggled agent appends exactly the entry "User Flagged" to the factor
list and never lowers the score, and it raises the score by exactly 5
whenever the pre-toggle score is at most 95 (the clamp at 100 absorbs
the +5 above that). -/
theorem c10_toggle_effect :
    ∀ (es : List Entity) (e : Entity) (ph : String),
      e ∈ es → e.session.isWatched = false →
      ({ e with session := { e.session with isWatched := true } } ∈
          toggleWatchlist es e.id) ∧
      (∀ e' : Entity, e' = { e with session := { e.session with isWatched := true } } →
        e'.id = e.id ∧ e'.name = e.name ∧ e'.ticketType = e.ticketType ∧
        e'.longitude = e.longitude ∧ e'.latitude = e.latitude ∧
        e'.target = e.target ∧ e'.status = e.status ∧
        e'.waitTicks = e.waitTicks ∧ e'.inventory = e.inventory ∧
        e'.history = e.history ∧
        e'.session.alcoholCount = e.session.alcoholCount ∧
        e'.session.zonesVisited = e.session.zonesVisited ∧
        e'.session.isWatched = true) ∧
      ((calculateThreatScore
          { e with session := { e.session with isWatched := true } } ph).factors =
        (calculateThreatScore e ph).factors ++ ["User Flagged"]) ∧
      ((calculateThreatScore e ph).score ≤
        (calculateThreatScore
          { e with session := { e.session with isWatched := true } } ph).score) ∧
      ((calculateThreatScore e ph).score ≤ 95 →
        (calculateThreatScore
          { e with session := { e.session with isWatched := true } } ph).score =
        (calculateThreatScore e ph).score + 5) := by
  intro es e ph hmem hoff
  have hraw : rawScore { e with session := { e.session with isWatched := true } } =
      rawScore e + 5 := by
    simp only [rawScore, watchlistContrib, priorContrib, alcoholHistoryContrib,
      drinksContrib, zoneContrib, rushingContrib, loiteringContrib, watchedContrib, hoff]
    simp
  refine ⟨?_, ?_, ?_, ?_, ?_⟩
  · have : ({ e with session := { e.session with isWatched := true } } : Entity) =
        (fun x : Entity =>
          if x.id == e.id then
            { x with session := { x.session with isWatched := !x.session.isWatched } }
          else x) e := by
      simp [hoff]
    rw [toggleWatchlist, this]
    exact List.mem_map_of_mem _ hmem
  · rintro e' rfl
    simp
  · show (watchlistContrib _).2 ++ (priorContrib _).2 ++ (alcoholHistoryContrib _).2
      ++ (drinksContrib _).2 ++ (zoneContrib _).2 ++ (rushingContrib _).2
      ++ (loiteringContrib _).2 ++ (watchedContrib _).2 = _
    simp only [watchlistContrib, priorContrib, alcoholHistoryContrib,
      drinksContrib, zoneContrib, rushingContrib, loiteringContrib, watchedContrib, hoff]
    simp [calculateThreatScore, watchlistContrib, priorContrib, alcoholHistoryContrib,
      drinksContrib, zoneContrib, rushingContrib, loiteringContrib, watchedContrib, hoff]
  · rw [score_eq, score_eq, hraw]; omega
  · rw [score_eq, score_eq, hraw]; omega

/-- Witness for the amended C10 at a concrete unflagged agent. -/
theorem c10_toggle_effect_witness :
    c1Entity ∈ [c1Entity] ∧ c1Entity.session.isWatched = false ∧
    (calculateThreatScore
      { c1Entity with session := { c1Entity.session with isWatched := true } } "Q1").factors =
    (calculateThreatScore c1Entity "Q1").factors ++ ["User Flagged"] :=
  ⟨List.mem_singleton.mpr rfl, rfl,
   ((c10_toggle_effect [c1Entity] c1Entity "Q1" (List.mem_singleton.mpr rfl) rfl).2.2).1⟩

/-! ## C4 and C5: prediction queue discipline -/

/-- Number of live predictions for a given `(entityId, pattern)`
pair. -/
def countPair (l : List Prediction) (eid pat : String) : ℕ :=
  (l.filter fun p => p.entityId == eid && p.prediction == pat).length

/-- C4: inserting a prediction for a fresh `(agentId, pattern)` pair
and issuing the same pair again less than 10 seconds later while the
first is still live suppresses the second insertion entirely, leaving
exactly one live prediction for the pair. -/
theorem c4_dedup_within_cooldown :
    ∀ (l₀ : List Prediction) (e : Entity) (pat : String) (c₁ c₂ : ℤ) (t₁ t₂ : ℤ),
      countPair l₀ e.id pat = 0 → t₁ ≤ t₂ → t₂ - t₁ < 10000 →
      addPrediction (addPrediction l₀ e pat c₁ t₁) e pat c₂ t₂ =
        addPrediction l₀ e pat c₁ t₁ ∧
      countPair (addPrediction l₀ e pat c₁ t₁) e.id pat = 1 := by
  intro l₀ e pat c₁ c₂ t₁ t₂ h0 hle hlt
  have hnone : ∀ p ∈ l₀, ¬(p.entityId == e.id && p.prediction == pat) = true := by
    have := List.length_eq_zero.mp h0
    intro p hp
    exact List.filter_eq_nil_iff.mp this p hp
  have hdup₁ : isDupFor l₀ e.id pat t₁ = false := by
    rw [isDupFor, List.any_eq_false]
    intro p hp hcontra
    exact hnone p hp (by
      rcases Bool.and_eq_true_iff.mp hcontra with ⟨hpair, -⟩
      exact hpair)
  have hl₁ : addPrediction l₀ e pat c₁ t₁ =
      mkNewPred e pat c₁ t₁ :: l₀.take 4 := by
    rw [addPrediction, hdup₁]
    simp [List.take_succ_cons]
  have hmkPair : ((mkNewPred e pat c₁ t₁).entityId == e.id &&
      (mkNewPred e pat c₁ t₁).prediction == pat) = true := by
    simp [mkNewPred]
  have hdup₂ : isDupFor (addPrediction l₀ e pat c₁ t₁) e.id pat t₂ = true := by
    rw [hl₁, isDupFor, List.any_eq_true]
    refine ⟨mkNewPred e pat c₁ t₁, List.mem_cons_self _ _, ?_⟩
    rw [Bool.and_eq_true_iff]
    refine ⟨hmkPair, ?_⟩
    simpa [mkNewPred] using hlt
  constructor
  · rw [addPrediction]
    rw [hdup₂]
    simp
  · rw [hl₁, countPair, List.filter_cons, if_pos hmkPair]
    have : (l₀.take 4).filter
        (fun p => p.entityId == e.id && p.prediction == pat) = [] :=
      List.filter_eq_nil_iff.mpr fun p hp => hnone p (List.take_subset 4 l₀ hp)
    rw [this]
    rfl

/-- Witness for C4 starting from the empty queue. -/
theorem c4_dedup_within_cooldown_witness :
    countPair [] c1Entity.id "INTOXICATION_MONITOR" = 0 ∧ (0 : ℤ) ≤ 5000 ∧
      (5000 : ℤ) - 0 < 10000 ∧
    countPair (addPrediction [] c1Entity "INTOXICATION_MONITOR" 74 0)
      c1Entity.id "INTOXICATION_MONITOR" = 1 :=
  ⟨rfl, by decide, by decide,
   (c4_dedup_within_cooldown [] c1Entity "INTOXICATION_MONITOR" 74 82 0 5000
      rfl (by decide) (by decide)).2⟩

/-- An operation on the live prediction list: a tick's insertion
attempt or an operator dismissal. -/
inductive QueueOp where
  | add (e : Entity) (pat : String) (conf : ℤ) (now : ℤ)
  | dismiss (pid : String)

/-- Apply one queue operation. -/
def applyOp (l : List Prediction) (op : QueueOp) : List Prediction :=
  match op with
  | .add e pat conf now => addPrediction l e pat conf now
  | .dismiss pid => dismissPrediction l pid

/-- One insertion attempt keeps the queue within the bound. -/
theorem length_addPrediction_le (l : List Prediction) (e : Entity) (pat : String)
    (conf now : ℤ) (h : l.length ≤ 5) :
    (addPrediction l e pat conf now).length ≤ 5 := by
  rw [addPrediction]
  split_ifs
  · exact h
  · exact le_trans (List.length_take_le _ _) (by omega)

/-- C5: starting from any queue within the bound, the live prediction
list never exceeds 5 entries after any sequence of insertion attempts
and dismissals; a non-duplicate insertion prepends the new prediction
and truncates to the 5 most recent (when the queue is full the dropped
entry is the last, i.e. oldest, one, regardless of its priority); and
dismissal only removes entries. -/
theorem c5_queue_bound :
    (∀ (l : List Prediction) (ops : List QueueOp), l.length ≤ 5 →
      (ops.foldl applyOp l).length ≤ 5) ∧
    (∀ (l : List Prediction) (e : Entity) (pat : String) (conf now : ℤ),
      isDupFor l e.id pat now = false →
      addPrediction l e pat conf now = mkNewPred e pat conf now :: l.take 4 ∧
      (l.length = 5 → l.take 4 = l.dropLast)) ∧
    (∀ (l : List Prediction) (pid : String),
      (dismissPrediction l pid).Sublist l) := by
  refine ⟨?_, ?_, ?_⟩
  · intro l ops
    induction ops generalizing l with
    | nil => intro h; exact h
    | cons op rest ih =>
      intro h
      rw [List.foldl_cons]
      apply ih
      match op with
      | .add e pat conf now => exact length_addPrediction_le l e pat conf now h
      | .dismiss pid => exact le_trans (List.length_filter_le _ _) h
  · intro l e pat conf now hdup
    constructor
    · rw [addPrediction, hdup]
      simp [List.take_succ_cons]
    · intro h5
      rw [List.dropLast_eq_take, h5]
  · intro l pid
    exact List.filter_sublist _

/-- Witness for C5: a concrete short operation sequence from the empty
queue stays within the bound, and a concrete non-duplicate insertion
prepends. -/
theorem c5_queue_bound_witness :
    ([] : List Prediction).length ≤ 5 ∧
    (([QueueOp.add c1Entity "ANOMALY_DETECTED" 42 0,
       QueueOp.dismiss "nothing"].foldl applyOp []).length ≤ 5) ∧
    isDupFor [] c1Entity.id "ANOMALY_DETECTED" 0 = false ∧
    addPrediction [] c1Entity "ANOMALY_DETECTED" 42 0 =
      mkNewPred c1Entity "ANOMALY_DETECTED" 42 0 :: ([] : List Prediction).take 4 :=
  ⟨by decide,
   c5_queue_bound.1 []
     [QueueOp.add c1Entity "ANOMALY_DETECTED" 42 0, QueueOp.dismiss "nothing"]
     (by decide),
   rfl,
   (c5_queue_bound.2.1 [] c1Entity "ANOMALY_DETECTED" 42 0 rfl).1⟩

/-! ## C9: the intoxication prediction branch -/

/-- Floor of the intoxication confidence formula is the integer value
itself. -/
theorem intoxication_confidence_eq (drinks : ℕ) :
    (⌊(50 : ℚ) + (drinks : ℚ) * 8⌋ : ℤ) = 50 + (drinks : ℤ) * 8 := by
  have : ((50 : ℚ) + (drinks : ℚ) * 8) = ((50 + (drinks : ℤ) * 8 : ℤ) : ℚ) := by
    push_cast; ring
  rw [this, Int.floor_intCast]

/-- C9: when the prediction generator fires (score at least 40, the 4%
roll passes) for an agent with score below 60 and at least 3 session
drinks, the selected pattern is `INTOXICATION_MONITOR` with confidence
exactly `50 + 8 × drinks`, unclamped — at the session cap of 8 drinks
it reaches 114, exceeding 100; a prediction is attempted only when the
score is at least 40; and a tick never raises the drink count above the
cap of 8. -/
theorem c9_intoxication_confidence :
    (∀ (score drinks priors : ℕ) (fire choice conf : ℚ),
      40 ≤ score → score < 60 → 3 ≤ drinks → fire > 0.96 →
      tickPredict score drinks priors fire choice conf =
        some ("INTOXICATION_MONITOR", 50 + (drinks : ℤ) * 8)) ∧
    (∀ (score priors : ℕ) (fire choice conf : ℚ),
      40 ≤ score → score < 60 → fire > 0.96 →
      tickPredict score 8 priors fire choice conf =
        some ("INTOXICATION_MONITOR", 114) ∧ (114 : ℤ) > 100) ∧
    (∀ (score drinks priors : ℕ) (fire choice conf : ℚ), score < 40 →
      tickPredict score drinks priors fire choice conf = none) ∧
    (∀ (ph : String) (e : Entity) (r : TickRand), e.session.alcoholCount ≤ 8 →
      (tickEntity ph e r).1.session.alcoholCount ≤ 8) := by
  have hsel : ∀ (score drinks priors : ℕ) (choice conf : ℚ),
      score < 60 → 3 ≤ drinks →
      selectPrediction score drinks priors choice conf =
        ("INTOXICATION_MONITOR", 50 + (drinks : ℤ) * 8) := by
    intro score drinks priors choice conf h60 h3
    rw [selectPrediction, if_neg (by omega), if_pos h3, intoxication_confidence_eq]
  refine ⟨?_, ?_, ?_, ?_⟩
  · intro score drinks priors fire choice conf h40 h60 h3 hfire
    rw [tickPredict, if_pos (by simp [h40, hfire]), hsel score drinks priors choice conf h60 h3]
  · intro score priors fire choice conf h40 h60 hfire
    refine ⟨?_, by norm_num⟩
    rw [tickPredict, if_pos (by simp [h40, hfire]),
      hsel score 8 priors choice conf h60 (by norm_num)]
    norm_num
  · intro score drinks priors fire choice conf h40
    rw [tickPredict, if_neg (by simp; omega)]
  · intro ph e r h
    simp only [tickEntity]
    split_ifs <;> simp_all <;> omega

/-- Witness for C9 at concrete inputs: score 45, the capped 8 drinks,
a passing sampling roll. -/
theorem c9_intoxication_confidence_witness :
    (40 : ℕ) ≤ 45 ∧ (45 : ℕ) < 60 ∧ ((0.97 : ℚ) > 0.96) ∧
    tickPredict 45 8 0 0.97 0 0 = some ("INTOXICATION_MONITOR", 114) :=
  ⟨by decide, by decide, by norm_num,
   (c9_intoxication_confidence.2.1 45 0 0.97 0 0 (by decide) (by decide)
     (by norm_num)).1⟩

/-! ## C3: exclusion-zone containment -/

/-- Every position `getRandomPos` can produce, for any zone preference,
lies outside the exclusion-zone rectangle. -/
theorem getRandomPos_outside (pref : Option String) (r : PosRand)
    (hv : validPosRand r) :
    isInRestrictedField (getRandomPos pref r).longitude
      (getRandomPos pref r).latitude = false := by
  obtain ⟨ha0, ha1, hb0, hb1, hc0, hc1⟩ := hv
  have Hb : ∀ k : ℚ, 0 ≤ k → 0 ≤ r.b * k ∧ r.b * k ≤ k := by
    intro k hk
    exact ⟨mul_nonneg hb0 hk, by nlinarith⟩
  have Hc : ∀ k : ℚ, 0 ≤ k → 0 ≤ r.c * k ∧ r.c * k ≤ k := by
    intro k hk
    exact ⟨mul_nonneg hc0 hk, by nlinarith⟩
  unfold getRandomPos
  split_ifs <;>
    (refine Bool.eq_false_iff.mpr fun h => ?_
     simp only [isInRestrictedField, FIELD_BOUNDS, Bool.and_eq_true,
       decide_eq_true_eq] at h
     obtain ⟨⟨⟨hA, hB⟩, hC⟩, hD⟩ := h) <;>
    first
    | (obtain ⟨h1, h2⟩ := Hb 0.0003 (by norm_num); split_ifs at hA hB <;> linarith)
    | (obtain ⟨h1, h2⟩ := Hc 0.0004 (by norm_num); linarith)
    | (obtain ⟨h1, h2⟩ := Hc 0.0006 (by norm_num); linarith)
    | (obtain ⟨h1, h2⟩ := Hb 0.0006 (by norm_num); linarith)

/-- The containment correction leaves an unauthorized entity outside
the exclusion zone whichever branch runs. -/
theorem correctedPos_outside (e : Entity) (r : TickRand)
    (hv : validTickRand r) :
    isInRestrictedField (correctedPos e false r).longitude
      (correctedPos e false r).latitude = false := by
  rw [correctedPos]
  split_ifs with h
  · exact getRandomPos_outside none r.teleportPos hv.1
  · simp only [Bool.not_false, Bool.and_true] at h
    exact Bool.eq_false_iff.mpr h

/-- The movement step never moves an unauthorized entity into the
exclusion zone: its starting position is kept unless the stepped-to
point passes the exclusion re-validation. -/
theorem moveStep_outside (ph : String) (p0 tgt : Pos) (status ticketType : String)
    (r : TickRand) (hp0 : isInRestrictedField p0.longitude p0.latitude = false) :
    isInRestrictedField (moveStep ph p0 tgt status ticketType false r).1.longitude
      (moveStep ph p0 tgt status ticketType false r).1.latitude = false := by
  simp only [moveStep]
  split_ifs <;>
    first
    | exact hp0
    | simp_all only [Bool.or_false, Bool.not_eq_true']

/-- C3: for every tick, every phase and every random draw sequence, an
agent whose credential is neither `staff` nor `media` ends the tick's
motion update outside the exclusion-zone rectangle, whatever its
pre-tick position; and every fallback position `getRandomPos` samples
lies outside the exclusion zone. -/
theorem c3_containment :
    ∀ (ph : String) (e : Entity) (r : TickRand),
      validTickRand r → e.ticketType ≠ "staff" → e.ticketType ≠ "media" →
      (isInRestrictedField (tickEntity ph e r).1.longitude
        (tickEntity ph e r).1.latitude = false) ∧
      (∀ (pref : Option String) (pr : PosRand), validPosRand pr →
        isInRestrictedField (getRandomPos pref pr).longitude
          (getRandomPos pref pr).latitude = false) := by
  intro ph e r hv hs hm
  have hAuth : (["staff", "media"].contains e.ticketType) = false := by
    simp [hs, hm]
  refine ⟨?_, fun pref pr hpr => getRandomPos_outside pref pr hpr⟩
  have hp0 := correctedPos_outside e r hv
  have hmv := moveStep_outside ph (correctedPos e false r)
    (correctedTarget e false r) e.status e.ticketType r hp0
  simp only [tickEntity, hAuth]
  split_ifs <;>
    first
    | simpa using hp0
    | simpa using hmv

/-- Witness for C3: a concrete `general`-credential agent and a
concrete draw sequence. -/
def zeroPosRand : PosRand := ⟨0, 0, 0⟩

/-- A concrete all-zero draw sequence for the tick oracle. -/
def zeroTickRand : TickRand :=
  { teleportPos := zeroPosRand, teleportTarget := zeroPosRand
    targetFix := zeroPosRand, idleRoll := 0, idleDur := 0, distOracle := 0
    halfRoll := 0, arriveConc := zeroPosRand, arriveNorm := zeroPosRand
    vipRedirect := zeroPosRand, fieldRedirect := zeroPosRand
    purchaseRoll := 0, beerRoll := 0, drinkChoice := 0, itemChoice := 0
    statusRoll := 0, statusKindRoll := 0, predFire := 0, predChoice := 0
    predConf := 0 }

/-- Witness for C3 at the concrete agent and draws. -/
theorem c3_containment_witness :
    validTickRand zeroTickRand ∧ c1Entity.ticketType ≠ "staff" ∧
    c1Entity.ticketType ≠ "media" ∧
    isInRestrictedField (tickEntity "Q1" c1Entity zeroTickRand).1.longitude
      (tickEntity "Q1" c1Entity zeroTickRand).1.latitude = false :=
  have hvt : validTickRand zeroTickRand := by
    norm_num [validTickRand, validPosRand, zeroTickRand, zeroPosRand]
  ⟨hvt, by decide, by decide,
   (c3_containment "Q1" c1Entity zeroTickRand hvt (by decide) (by decide)).1⟩

end Demo
